import Mathlib

/-!
Shallow embedding of the per-meeting RAG subsystem of `src/rag.py`
(class `MeetingRAG`) together with the shutdown hook of `src/app.py`.

External collaborators (the FAISS similarity search, the HuggingFace
embedding model, the Groq completion service, the langchain chunker,
memory and retrieval chain) are not part of the repository; where a
claim depends on their behaviour they are modelled from the spec, with
oracles (`embedFails`, `gpuMoveFails`, `releaseFails`, `retrieve`,
`complete`) standing for the outcome of each external call.
-/

set_option autoImplicit false

namespace Wizard

/-- One (question, answer) pair of a meeting's conversation history. -/
abbrev Turn := String × String

/-- Whether a FAISS index is accelerator-resident or in host memory
(`faiss.index_cpu_to_gpu` / `faiss.index_gpu_to_cpu` in `src/rag.py`). -/
inductive IndexLoc where
  | gpu
  | cpu
deriving DecidableEq, Repr

/-- A per-meeting vector store: the chunk texts it was built from and the
current placement of its index (`vectorstore` in `src/rag.py`). -/
structure VectorStore where
  texts : List String
  loc : IndexLoc
deriving DecidableEq, Repr

/-- Association-list lookup, first binding wins (Python dict lookup). -/
def getA {α : Type} : List (String × α) → String → Option α
  | [], _ => none
  | (k, v) :: rest, key => if k = key then some v else getA rest key

/-- Association-list update: replace in place if the key is bound,
append otherwise (Python dict assignment, insertion order preserved). -/
def setA {α : Type} : List (String × α) → String → α → List (String × α)
  | [], key, v => [(key, v)]
  | (k, w) :: rest, key, v =>
    if k = key then (key, v) :: rest else (k, w) :: setA rest key v

/-- The mutable per-process state of `MeetingRAG`: the two registries
`self.vectorstores` and `self.memories`, both keyed by the raw
caller-supplied meeting id (`src/rag.py` lines 64-65). -/
structure RAGState where
  vectorstores : List (String × VectorStore)
  memories : List (String × List Turn)
deriving DecidableEq, Repr

/-- A parsed meeting-analysis JSON object. Each field is `none` when the
key is absent from the JSON (accessing it raises `KeyError`). -/
structure MeetingData where
  transcript : Option String
  key_points : Option (List String)
  action_items : Option (List String)
  participants : Option (List String)
  follow_up : Option (List String)
  dates : Option (List String)
  next_steps : Option String
  summary : Option String
deriving DecidableEq, Repr

/-- A file of the `output/` directory: name, creation time
(`os.path.getctime`), and its parsed JSON content (`none` when
`json.load` raises). -/
structure StoredFile where
  name : String
  ctime : Nat
  data : Option MeetingData
deriving DecidableEq, Repr

/-- Environment of one request: the directory listing plus oracles for
the outcome of each external-collaborator call. -/
structure Env where
  files : List StoredFile
  use_gpu : Bool
  /-- `FAISS.from_texts` (embedding + indexing) raises. -/
  embedFails : Bool
  /-- `faiss.index_cpu_to_gpu` raises (`src/rag.py` line 130). -/
  gpuMoveFails : Bool
  /-- `faiss.index_gpu_to_cpu` raises for the given meeting's index
  (`src/rag.py` line 232). -/
  releaseFails : String → Bool
  /-- FAISS top-k similarity search over the store's texts. -/
  retrieve : List String → String → List String

/-- Python `str.lower()` restricted to ASCII case (artifact names and
meeting ids in this system are ASCII), character by character. -/
def toLowerStr (s : String) : String :=
  String.mk (s.data.map Char.toLower)

/-- Python `s.replace(' ', '_')`: every space becomes an underscore. -/
def underscore (s : String) : String :=
  String.mk (s.data.map fun c => if c = ' ' then '_' else c)

/-- Python `s.startswith(p)`. -/
def pyStartsWith (s p : String) : Bool :=
  p.data.isPrefixOf s.data

/-- Python `s.endswith(p)`. -/
def pyEndsWith (s p : String) : Bool :=
  p.data.isSuffixOf s.data

/-- Python `s[:n]`: the first `n` characters. -/
def pyTake (s : String) (n : Nat) : String :=
  String.mk (s.data.take n)

/-- `"\n".join(["- " + x for x in items])`. -/
def bulletList (items : List String) : String :=
  String.intercalate "\n" (items.map (fun i => "- " ++ i))

/-- `MeetingRAG._prepare_context` (`src/rag.py` lines 152-164). Returns
`none` when a field is missing (a `KeyError` escapes). Note the source
has no comma after the transcript f-string, so Python concatenates it
with the following "Key Points" literal into a single first section. -/
def prepare_context (m : MeetingData) : Option String := do
  let t ← m.transcript
  let kp ← m.key_points
  let ai ← m.action_items
  let ps ← m.participants
  let fu ← m.follow_up
  let ds ← m.dates
  let ns ← m.next_steps
  let sm ← m.summary
  let sections : List String :=
    [ "Full Transcript:\n" ++ t ++ "Key Points:\n" ++ bulletList kp,
      "Action Items:\n" ++ bulletList ai,
      "Participants: " ++ String.intercalate ", " ps,
      "Follow-up Items:\n" ++ bulletList fu,
      "Important Dates:\n" ++ bulletList ds,
      "Next Steps:\n" ++ ns,
      "Meeting Summary:\n" ++ sm ++ "\n" ]
  pure (String.intercalate "\n\n" sections)

/-- The four filename patterns tried for a meeting id
(`src/rag.py` lines 84-89). -/
def patternsOf (meeting_id : String) : List String :=
  [ toLowerStr (underscore meeting_id),
    underscore meeting_id,
    meeting_id,
    toLowerStr meeting_id ]

/-- One file-name test of the comprehension at `src/rag.py` line 95:
`f.startswith(pattern) or f.startswith(pattern.replace(' ', '_'))`. -/
def matchesPattern (p name : String) : Bool :=
  pyStartsWith name p || pyStartsWith name (underscore p)

/-- The candidate list built at `src/rag.py` lines 91-96: for each
pattern in order, every listed `.json` file whose name starts with it. -/
def matchingFiles (meeting_id : String) (files : List StoredFile) : List StoredFile :=
  let jsons := files.filter (fun f => pyEndsWith f.name ".json")
  (patternsOf meeting_id).flatMap
    (fun p => jsons.filter (fun f => matchesPattern p f.name))

/-- Python's `max(files, key=ctime)`: the first element of maximal key
(a later element replaces the current best only when strictly greater). -/
def maxByCtime : List StoredFile → Option StoredFile
  | [] => none
  | f :: rest =>
    some (rest.foldl (fun best g => if best.ctime < g.ctime then g else best) f)

/-- The artifact-resolution path of `MeetingRAG.load_meeting_data`
(`src/rag.py` lines 73-105): collect pattern-prefix matches, fail when
there are none, otherwise pick the most recently created one. -/
def resolveLatest (meeting_id : String) (files : List StoredFile) : Option StoredFile :=
  maxByCtime (matchingFiles meeting_id files)

/-- Modelled from the spec: the number of sliding-window chunks for a
document of length `L`, window `size` and stride `step = size - overlap`
(spec §4.2). Generation stops with the first chunk that reaches the end
of the document, so the count is the least `n ≥ 1` with
`(n - 1) * step + size ≥ L`: one chunk when `L ≤ size`, otherwise
`1 + ⌈(L - size) / step⌉`. -/
def numChunks (L size step : Nat) : Nat :=
  if L ≤ size then 1 else 1 + (L - size + step - 1) / step

/-- Modelled from the spec: the chunker (`RecursiveCharacterTextSplitter`
of langchain, external to the repository) as the sliding window of
spec §4.2 — chunk `i` starts at `i * (size - overlap)` and extends for
`size` characters, the last chunk may be shorter than `size`. -/
def slideChunks {α : Type} (size step : Nat) (cs : List α) : List (List α) :=
  (List.range (numChunks cs.length size step)).map
    fun i => (cs.drop (i * step)).take size

/-- Modelled from the spec: `split(doc, size, overlap)` of spec §4.2,
with the `overlap < size` precondition (`InvalidConfigError` otherwise).
`MeetingRAG` calls it with size 1000 and overlap 200 (`src/rag.py`
lines 60-63, 117). -/
def split_text (s : String) (size overlap : Nat) : Except String (List String) :=
  if overlap < size then
    Except.ok ((slideChunks size (size - overlap) s.data).map fun cs => String.mk cs)
  else
    Except.error "InvalidConfigError"

/-- `MeetingRAG.load_meeting_data` (`src/rag.py` lines 67-150) as a state
transition. Every exception of the body is caught by the outer
`try/except`, which returns `False` (lines 148-150); a failed GPU move is
caught by the inner handler (lines 133-134) and leaves the index on the
CPU. On success the vector store is cached and a fresh empty conversation
memory is installed (lines 136-143). -/
def load_meeting_data (env : Env) (st : RAGState) (meeting_id : String) :
    Bool × RAGState :=
  if (getA st.vectorstores meeting_id).isSome then (true, st)
  else
    match resolveLatest meeting_id env.files with
    | none => (false, st)
    | some file =>
      match file.data with
      | none => (false, st)
      | some md =>
        match prepare_context md with
        | none => (false, st)
        | some context =>
          match split_text context 1000 200 with
          | Except.error _ => (false, st)
          | Except.ok texts =>
            if env.embedFails then (false, st)
            else
              let loc := if env.use_gpu && !env.gpuMoveFails then IndexLoc.gpu
                         else IndexLoc.cpu
              (true,
               { st with
                   vectorstores :=
                     setA st.vectorstores meeting_id { texts := texts, loc := loc },
                   memories := setA st.memories meeting_id [] })

/-- The input handed to the retrieval chain's completion call
(`src/rag.py` lines 194-197): the question and the meeting memory's
message list. -/
structure ChainInput where
  question : String
  chat_history : List Turn
deriving DecidableEq, Repr

/-- Composes the chain input from a meeting's conversation memory:
`{"question": question, "chat_history": memory.chat_memory.messages}`
(`src/rag.py` lines 194-197). The full message list is passed. -/
def mkChainInput (memory : List Turn) (question : String) : ChainInput :=
  { question := question, chat_history := memory }

/-- The error detail `answer_question` raises for a failed load
(`src/rag.py` lines 171, 209-212). -/
def notFoundDetail (meeting_id : String) : String :=
  "Failed to answer question: Meeting data not found for ID: " ++ meeting_id

/-- The loaded-meeting path of `MeetingRAG.answer_question`
(`src/rag.py` lines 173-205): look up the store and memory, retrieve
top-3 chunks, invoke the chain, and on success return the answer with
truncated source previews and the memory extended by the new turn. -/
def answerLoaded (env : Env) (st : RAGState) (meeting_id question : String)
    (complete : ChainInput → Option String) :
    Except String (String × List String) × RAGState :=
  match getA st.vectorstores meeting_id, getA st.memories meeting_id with
  | some vs, some memory =>
    match complete (mkChainInput memory question) with
    | none => (Except.error "Failed to answer question: completion service error", st)
    | some answer =>
      let sources := ((env.retrieve vs.texts question).take 3).map
        fun doc => pyTake doc 200 ++ "..."
      (Except.ok (answer, sources),
       { st with memories := setA st.memories meeting_id (memory ++ [(question, answer)]) })
  | _, _ => (Except.error "Failed to answer question: KeyError", st)

/-- `MeetingRAG.answer_question` (`src/rag.py` lines 166-212).
`complete` is the external completion collaborator: `none` models a
raised/timed-out completion call. Modelled from the spec for the chain
internals (`ConversationalRetrievalChain` is external): on success the
chain appends the new turn to the meeting's memory; on failure no memory
mutation occurs. Errors surface as the `HTTPException` detail string. -/
def answer_question (env : Env) (st : RAGState) (meeting_id question : String)
    (complete : ChainInput → Option String) :
    Except String (String × List String) × RAGState :=
  if (getA st.vectorstores meeting_id).isSome then
    answerLoaded env st meeting_id question complete
  else
    match load_meeting_data env st meeting_id with
    | (false, st1) => (Except.error (notFoundDetail meeting_id), st1)
    | (true, st1) => answerLoaded env st1 meeting_id question complete

/-- `MeetingRAG.clear_meeting_context` (`src/rag.py` lines 214-223):
empty the memory when one exists, return `True` either way. -/
def clear_meeting_context (st : RAGState) (meeting_id : String) :
    Bool × RAGState :=
  if (getA st.memories meeting_id).isSome then
    (true, { st with memories := setA st.memories meeting_id [] })
  else (true, st)

/-- The `for vectorstore in self.vectorstores.values()` loop of
`MeetingRAG.cleanup` (`src/rag.py` lines 229-233). A raised
`faiss.index_gpu_to_cpu` (oracle `releaseFails`) escapes to the single
outer `try/except`, so the current index keeps its placement and the
remaining indices are not visited. -/
def releaseLoop (releaseFails : String → Bool) :
    List (String × VectorStore) → List (String × VectorStore)
  | [] => []
  | (id, vs) :: rest =>
    if releaseFails id then (id, vs) :: rest
    else (id, { vs with loc := IndexLoc.cpu }) :: releaseLoop releaseFails rest

/-- `MeetingRAG.cleanup` (`src/rag.py` lines 225-236): when the process
uses a GPU, move every vector store's index back to host memory; any
exception is caught and logged, never propagated. -/
def cleanup (env : Env) (st : RAGState) : RAGState :=
  if env.use_gpu then
    { st with vectorstores := releaseLoop env.releaseFails st.vectorstores }
  else st

/-- The FastAPI shutdown hook (`src/app.py` lines 522-525): awaits
`meeting_rag.cleanup()`. -/
def shutdown_event (env : Env) (st : RAGState) : RAGState :=
  cleanup env st

/-! Concrete fixtures used by witnesses and counterexamples. -/

/-- A well-formed meeting-analysis record (every field present). -/
def sampleData : MeetingData :=
  { transcript := some "We met."
    key_points := some ["k1"]
    action_items := some ["a1"]
    participants := some ["Ana"]
    follow_up := some ["f1"]
    dates := some ["2024-05-01"]
    next_steps := some "ship"
    summary := some "short" }

/-- A record whose `key_points` key is absent: `_prepare_context`
raises `KeyError` on it. -/
def malformedData : MeetingData :=
  { transcript := some "We met."
    key_points := none
    action_items := some ["a1"]
    participants := some ["Ana"]
    follow_up := some ["f1"]
    dates := some ["2024-05-01"]
    next_steps := some "ship"
    summary := some "short" }

/-- The stored artifact of the spec's fuzzy-matching scenario. -/
def weeklyFile : StoredFile :=
  { name := "Weekly_Sync_20240501_120000.json", ctime := 100, data := some sampleData }

/-- The same artifact name but with malformed content. -/
def weeklyBadFile : StoredFile :=
  { name := "Weekly_Sync_20240501_120000.json", ctime := 100, data := some malformedData }

/-- A retrieval oracle returning no documents. -/
def noRetrieve : List String → String → List String := fun _ _ => []

/-- CPU-only environment holding the well-formed weekly-sync artifact. -/
def env1 : Env :=
  { files := [weeklyFile], use_gpu := false, embedFails := false,
    gpuMoveFails := false, releaseFails := fun _ => false, retrieve := noRetrieve }

/-- Environment holding only the malformed weekly-sync artifact. -/
def envBad : Env :=
  { files := [weeklyBadFile], use_gpu := false, embedFails := false,
    gpuMoveFails := false, releaseFails := fun _ => false, retrieve := noRetrieve }

/-- Environment with an empty output directory. -/
def envNone : Env :=
  { files := [], use_gpu := false, embedFails := false,
    gpuMoveFails := false, releaseFails := fun _ => false, retrieve := noRetrieve }

/-- GPU environment whose accelerator placement call raises. -/
def envGpuFail : Env :=
  { files := [weeklyFile], use_gpu := true, embedFails := false,
    gpuMoveFails := true, releaseFails := fun _ => false, retrieve := noRetrieve }

/-- GPU environment where releasing meeting "a"'s index raises. -/
def envRelFail : Env :=
  { files := [], use_gpu := true, embedFails := false, gpuMoveFails := false,
    releaseFails := fun id => id = "a", retrieve := noRetrieve }

/-- GPU environment where no release call raises. -/
def envRelOk : Env :=
  { files := [], use_gpu := true, embedFails := false, gpuMoveFails := false,
    releaseFails := fun _ => false, retrieve := noRetrieve }

/-- The empty registry state (fresh process). -/
def st0 : RAGState := { vectorstores := [], memories := [] }

/-- The corpus document built from `sampleData`. -/
def sampleContext : String := (prepare_context sampleData).getD ""

/-- A state in which meeting "m" is already loaded. -/
def stCached : RAGState :=
  { vectorstores := [("m", { texts := ["x"], loc := IndexLoc.cpu })],
    memories := [("m", [])] }

/-- A state with two GPU-resident indices, for the shutdown claims. -/
def stTwoGpu : RAGState :=
  { vectorstores :=
      [("a", { texts := ["ta"], loc := IndexLoc.gpu }),
       ("b", { texts := ["tb"], loc := IndexLoc.gpu })],
    memories := [] }

/-- The state after loading both "Weekly Sync" and "Weekly_Sync". -/
def stBoth : RAGState :=
  (load_meeting_data env1 (load_meeting_data env1 st0 "Weekly Sync").2 "Weekly_Sync").2

/-! Helper lemmas about the association-list registries. -/

theorem getA_setA_self {α : Type} (l : List (String × α)) (k : String) (v : α) :
    getA (setA l k v) k = some v := by
  induction l with
  | nil => simp [getA, setA]
  | cons hd tl ih =>
    obtain ⟨k', w⟩ := hd
    by_cases h : k' = k <;> simp [getA, setA, h, ih]

theorem getA_setA_ne {α : Type} (l : List (String × α)) (k k' : String) (v : α)
    (h : k ≠ k') : getA (setA l k v) k' = getA l k' := by
  induction l with
  | nil => simp [getA, setA, h]
  | cons hd tl ih =>
    obtain ⟨k₀, w⟩ := hd
    by_cases h0 : k₀ = k
    · subst h0
      simp [getA, setA, h]
    · simp [getA, setA, h0, ih]

/-! Helper lemmas about `maxByCtime` (Python's `max(files, key=getctime)`). -/

theorem foldlMax_mem (l : List StoredFile) (f : StoredFile) :
    l.foldl (fun best g => if best.ctime < g.ctime then g else best) f = f ∨
      l.foldl (fun best g => if best.ctime < g.ctime then g else best) f ∈ l := by
  induction l generalizing f with
  | nil => simp
  | cons hd tl ih =>
    simp only [List.foldl_cons]
    rcases ih (if f.ctime < hd.ctime then hd else f) with h | h
    · rw [h]
      by_cases hc : f.ctime < hd.ctime <;> simp [hc]
    · simp [h]

theorem foldlMax_ge (l : List StoredFile) (f : StoredFile) :
    f.ctime ≤ (l.foldl (fun best g => if best.ctime < g.ctime then g else best) f).ctime ∧
      ∀ g ∈ l,
        g.ctime ≤ (l.foldl (fun best g => if best.ctime < g.ctime then g else best) f).ctime := by
  induction l generalizing f with
  | nil => simp
  | cons hd tl ih =>
    simp only [List.foldl_cons]
    obtain ⟨h1, h2⟩ := ih (if f.ctime < hd.ctime then hd else f)
    constructor
    · refine le_trans ?_ h1
      by_cases hc : f.ctime < hd.ctime <;> simp [hc]
      omega
    · intro g hg
      rcases List.mem_cons.mp hg with rfl | hg
      · refine le_trans ?_ h1
        by_cases hc : f.ctime < g.ctime <;> simp [hc]
        omega
      · exact h2 g hg

/-- The file `maxByCtime` returns belongs to the candidate list and its
creation time is maximal among the candidates. -/
theorem maxByCtime_spec (l : List StoredFile) (m : StoredFile)
    (h : maxByCtime l = some m) : m ∈ l ∧ ∀ g ∈ l, g.ctime ≤ m.ctime := by
  match l with
  | [] => simp [maxByCtime] at h
  | f :: rest =>
    simp only [maxByCtime, Option.some.injEq] at h
    subst h
    constructor
    · rcases foldlMax_mem rest f with h | h
      · rw [h]; exact List.mem_cons_self _ _
      · exact List.mem_cons_of_mem _ h
    · intro g hg
      obtain ⟨h1, h2⟩ := foldlMax_ge rest f
      rcases List.mem_cons.mp hg with rfl | hg
      · exact h1
      · exact h2 g hg

/-- C1: the claim fails on the code. Matching lowercases only the
caller's id, never the stored names, and `startswith` is case
sensitive, so meeting id "weekly sync" does not resolve to the stored
artifact "Weekly_Sync_20240501_120000.json"; the question fails with
the not-found error instead. -/
theorem c1_counterexample :
    resolveLatest "weekly sync" [weeklyFile] = none ∧
    answer_question env1 st0 "weekly sync" "What happened?" (fun _ => some "ans") =
      (Except.error (notFoundDetail "weekly sync"), st0) := by
  constructor
  · decide
  · rfl

/-- C1 (amended): resolution is case-sensitive prefix matching of the
stored names against the four query patterns (underscored-lowercased,
underscored, exact, lowercased), and among the matches the most
recently created artifact wins; id "Weekly Sync" resolves to
"Weekly_Sync_20240501_120000.json" while "Nonexistent Meeting" fails. -/
theorem c1_amended :
    (∀ (id : String) (files : List StoredFile) (f : StoredFile),
        resolveLatest id files = some f →
          f ∈ matchingFiles id files ∧
            ∀ g ∈ matchingFiles id files, g.ctime ≤ f.ctime) ∧
    resolveLatest "Weekly Sync" [weeklyFile] = some weeklyFile ∧
    resolveLatest "Nonexistent Meeting" [weeklyFile] = none := by
  refine ⟨?_, by decide, by decide⟩
  intro id files f h
  exact maxByCtime_spec _ _ h

/-- Witness for `c1_amended` at the fuzzy-matching scenario input. -/
theorem c1_amended_witness :
    weeklyFile ∈ matchingFiles "Weekly Sync" [weeklyFile] ∧
      ∀ g ∈ matchingFiles "Weekly Sync" [weeklyFile], g.ctime ≤ weeklyFile.ctime :=
  c1_amended.1 "Weekly Sync" [weeklyFile] weeklyFile (by decide)

/-- C2: the build runs at most once per meeting id — a cached id returns
immediately with the state untouched in every environment (even one
where a rebuild would fail), a successful load caches the index, and a
failed load caches nothing, leaving the state unchanged for a retry. -/
theorem c2_theorem :
    (∀ (env : Env) (st : RAGState) (id : String),
        (getA st.vectorstores id).isSome →
          load_meeting_data env st id = (true, st)) ∧
    (∀ (env : Env) (st : RAGState) (id : String),
        (load_meeting_data env st id).1 = false →
          (load_meeting_data env st id).2 = st) ∧
    (∀ (env : Env) (st : RAGState) (id : String),
        (load_meeting_data env st id).1 = true →
          (getA (load_meeting_data env st id).2.vectorstores id).isSome) := by
  refine ⟨?_, ?_, ?_⟩
  · intro env st id h
    simp [load_meeting_data, h]
  · intro env st id
    unfold load_meeting_data
    repeat' split
    all_goals simp
  · intro env st id
    unfold load_meeting_data
    repeat' split
    all_goals simp_all [getA_setA_self]



/-- Witness for `c2_theorem` at concrete inputs. -/
theorem c2_witness :
    load_meeting_data envNone stCached "m" = (true, stCached) ∧
    (load_meeting_data envNone st0 "m").2 = st0 ∧
    (getA (load_meeting_data env1 st0 "Weekly Sync").2.vectorstores "Weekly Sync").isSome :=
  ⟨c2_theorem.1 envNone stCached "m" (by decide),
   c2_theorem.2.1 envNone st0 "m" (by decide),
   c2_theorem.2.2 env1 st0 "Weekly Sync" (by rfl)⟩

/-- C3: the claim fails on the code. There is no bound `N` on the
history handed to the completion service: the chain input always
carries the meeting's entire message list
(`memory.chat_memory.messages`, `src/rag.py` line 196). -/
theorem c3_counterexample :
    ¬ ∃ N : Nat, ∀ (memory : List Turn) (q : String),
        (mkChainInput memory q).chat_history.length ≤ N := by
  rintro ⟨N, h⟩
  have hN := h (List.replicate (N + 1) ("q", "a")) "q"
  simp [mkChainInput] at hN

/-- C3 (amended): the input composed for the completion service carries
the full accumulated history of the meeting — the completion
collaborator is consulted only through `mkChainInput memory q`, and each
successful answer appends one more turn, so the history sent grows
without bound. -/
theorem c3_amended :
    ∀ (env : Env) (st : RAGState) (id q : String) (vs : VectorStore)
      (memory : List Turn) (complete : ChainInput → Option String),
      getA st.vectorstores id = some vs →
      getA st.memories id = some memory →
      (∀ other : ChainInput → Option String,
          other (mkChainInput memory q) = complete (mkChainInput memory q) →
            answer_question env st id q other = answer_question env st id q complete) ∧
      (∀ ans, complete (mkChainInput memory q) = some ans →
          getA (answer_question env st id q complete).2.memories id =
            some (memory ++ [(q, ans)])) := by
  intro env st id q vs memory complete h1 h2
  constructor
  · intro other heq
    simp [answer_question, h1, answerLoaded, h2, heq]
  · intro ans hans
    simp [answer_question, h1, answerLoaded, h2, hans, getA_setA_self]

/-- Witness for `c3_amended` at a concrete loaded meeting. -/
theorem c3_amended_witness :
    getA (answer_question env1 stCached "m" "Q"
        (fun _ => some "A")).2.memories "m" = some [("Q", "A")] :=
  ((c3_amended env1 stCached "m" "Q" { texts := ["x"], loc := IndexLoc.cpu } []
      (fun _ => some "A") (by decide) (by decide)).2 "A" rfl)

/-- C5: when the completion collaborator fails (or times out) for a
loaded meeting, `answer_question` surfaces the error and returns the
state entirely unchanged — in particular the conversation memory keeps
exactly its prior turns, so a retry composes the same history. -/
theorem c5_theorem :
    ∀ (env : Env) (st : RAGState) (id q : String) (vs : VectorStore)
      (memory : List Turn) (complete : ChainInput → Option String),
      getA st.vectorstores id = some vs →
      getA st.memories id = some memory →
      complete (mkChainInput memory q) = none →
      answer_question env st id q complete =
        (Except.error "Failed to answer question: completion service error", st) := by
  intro env st id q vs memory complete h1 h2 hc
  simp [answer_question, h1, answerLoaded, h2, hc]

/-- Witness for `c5_theorem`: a failing completion call on a loaded
meeting leaves the registry state untouched. -/
theorem c5_witness :
    answer_question env1 stCached "m" "Q" (fun _ => none) =
      (Except.error "Failed to answer question: completion service error", stCached) :=
  c5_theorem env1 stCached "m" "Q" { texts := ["x"], loc := IndexLoc.cpu } []
    (fun _ => none) (by decide) (by decide) rfl

/-- C6: the claim fails on the code. A stored artifact that matches the
meeting id but fails validation is caught by the blanket handler of
`load_meeting_data` (`src/rag.py` lines 148-150), so the request fails
with exactly the same not-found error and state as when no artifact
matches at all — the two conditions are indistinguishable to the
caller. -/
theorem c6_counterexample :
    resolveLatest "Weekly Sync" [weeklyBadFile] = some weeklyBadFile ∧
    answer_question envBad st0 "Weekly Sync" "Q" (fun _ => some "A") =
      answer_question envNone st0 "Weekly Sync" "Q" (fun _ => some "A") ∧
    answer_question envBad st0 "Weekly Sync" "Q" (fun _ => some "A") =
      (Except.error (notFoundDetail "Weekly Sync"), st0) := by
  refine ⟨by decide, by rfl, by rfl⟩

/-- C6 (amended): a matching but malformed artifact makes the request
fail with the same "Meeting data not found" error the no-match case
produces, and the state is unchanged (nothing cached), so the meeting
stays unloaded and a corrected artifact can be retried later. -/
theorem c6_amended :
    ∀ (env : Env) (st : RAGState) (id q : String)
      (complete : ChainInput → Option String) (f : StoredFile) (md : MeetingData),
      getA st.vectorstores id = none →
      resolveLatest id env.files = some f →
      f.data = some md →
      prepare_context md = none →
      answer_question env st id q complete =
        (Except.error (notFoundDetail id), st) := by
  intro env st id q complete f md h1 h2 h3 h4
  simp [answer_question, h1, load_meeting_data, h2, h3, h4]

/-- Witness for `c6_amended` at the malformed weekly-sync artifact. -/
theorem c6_amended_witness :
    answer_question envBad st0 "Weekly Sync" "Q2" (fun _ => some "A") =
      (Except.error (notFoundDetail "Weekly Sync"), st0) :=
  c6_amended envBad st0 "Weekly Sync" "Q2" (fun _ => some "A") weeklyBadFile
    malformedData (by decide) (by decide) (by decide) (by decide)

/-- C7: `clear_meeting_context` returns `True` whether or not a memory
exists for the id, twice in a row; after either call the meeting's
conversation history is empty, and the vector-store registry is never
touched. -/
theorem c7_theorem :
    ∀ (st : RAGState) (id : String),
      (clear_meeting_context st id).1 = true ∧
      (clear_meeting_context st id).2.vectorstores = st.vectorstores ∧
      (getA (clear_meeting_context st id).2.memories id).getD [] = [] ∧
      (clear_meeting_context (clear_meeting_context st id).2 id).1 = true ∧
      (clear_meeting_context (clear_meeting_context st id).2 id).2.vectorstores
        = st.vectorstores ∧
      (getA (clear_meeting_context (clear_meeting_context st id).2 id).2.memories
        id).getD [] = [] := by
  intro st id
  by_cases h : (getA st.memories id).isSome
  · simp [clear_meeting_context, h, getA_setA_self]
  · have h' : getA st.memories id = none := by
      cases hm : getA st.memories id
      · rfl
      · simp [hm] at h
    simp [clear_meeting_context, h, h']



/-- C8: if moving the index to the accelerator raises during the build,
the build still succeeds — the store is cached with its index in host
memory, the load reports success, and a later question is answered from
it; the placement error never surfaces to the caller. -/
theorem c8_theorem :
    ∀ (env : Env) (st : RAGState) (id q a : String) (f : StoredFile)
      (md : MeetingData) (ctx : String),
      env.use_gpu = true →
      env.gpuMoveFails = true →
      env.embedFails = false →
      getA st.vectorstores id = none →
      resolveLatest id env.files = some f →
      f.data = some md →
      prepare_context md = some ctx →
      ∃ texts,
        split_text ctx 1000 200 = Except.ok texts ∧
        load_meeting_data env st id =
          (true,
           { st with
               vectorstores := setA st.vectorstores id { texts := texts, loc := IndexLoc.cpu },
               memories := setA st.memories id [] }) ∧
        (answer_question env (load_meeting_data env st id).2 id q (fun _ => some a)).1 =
          Except.ok (a, ((env.retrieve texts q).take 3).map fun d => pyTake d 200 ++ "...") := by
  intro env st id q a f md ctx hg hgf he h1 h2 h3 h4
  refine ⟨(slideChunks 1000 800 ctx.data).map (fun cs => String.mk cs), ?_, ?_, ?_⟩
  · simp [split_text]
  · simp [load_meeting_data, h1, h2, h3, h4, split_text, he, hg, hgf]
  · simp [load_meeting_data, h1, h2, h3, h4, split_text, he, hg, hgf,
      answer_question, answerLoaded, getA_setA_self]

/-- Witness for `c8_theorem`: the GPU environment whose placement call
raises still loads and answers the weekly-sync meeting. -/
theorem c8_witness :
    ∃ texts,
      split_text sampleContext 1000 200 = Except.ok texts ∧
      load_meeting_data envGpuFail st0 "Weekly Sync" =
        (true,
         { st0 with
             vectorstores := setA st0.vectorstores "Weekly Sync" { texts := texts, loc := IndexLoc.cpu },
             memories := setA st0.memories "Weekly Sync" [] }) ∧
      (answer_question envGpuFail (load_meeting_data envGpuFail st0 "Weekly Sync").2
          "Weekly Sync" "Q" (fun _ => some "A")).1 =
        Except.ok ("A", ((envGpuFail.retrieve texts "Q").take 3).map fun d => pyTake d 200 ++ "...") :=
  c8_theorem envGpuFail st0 "Weekly Sync" "Q" "A" weeklyFile sampleData sampleContext
    rfl rfl rfl (by decide) (by decide) (by decide) (by rfl)


theorem releaseLoop_noFail (fail : String → Bool) (l : List (String × VectorStore))
    (h : ∀ id, fail id = false) :
    releaseLoop fail l = l.map fun p => (p.1, { p.2 with loc := IndexLoc.cpu }) := by
  induction l with
  | nil => simp [releaseLoop]
  | cons hd tl ih =>
    obtain ⟨k, vs⟩ := hd
    simp [releaseLoop, h, ih]

theorem getA_map_loc (l : List (String × VectorStore)) (k : String) :
    getA (l.map fun p => (p.1, { p.2 with loc := IndexLoc.cpu })) k =
      (getA l k).map fun vs => { vs with loc := IndexLoc.cpu } := by
  induction l with
  | nil => simp [getA]
  | cons hd tl ih =>
    obtain ⟨k', vs⟩ := hd
    by_cases h : k' = k <;> simp [getA, h, ih]

/-- C9: the claim fails on the code. The whole release loop of
`MeetingRAG.cleanup` sits in a single `try/except`
(`src/rag.py` lines 227-236), so when releasing meeting "a"'s index
raises, the loop aborts and meeting "b"'s index is left on the
accelerator — releasing one index can prevent the remaining indices
from being released. -/
theorem c9_counterexample :
    envRelFail.releaseFails "a" = true ∧
    getA (shutdown_event envRelFail stTwoGpu).vectorstores "a" =
      some { texts := ["ta"], loc := IndexLoc.gpu } ∧
    getA (shutdown_event envRelFail stTwoGpu).vectorstores "b" =
      some { texts := ["tb"], loc := IndexLoc.gpu } := by
  decide

/-- C9 (amended): shutdown never propagates a release error and is safe
to repeat — on a host-only process it is a no-op, and when no release
call raises it moves every live index back to host memory, is
idempotent, and leaves the conversation memories untouched; but a
raised release aborts the loop for the remaining indices (see the
counterexample). -/
theorem c9_amended :
    (∀ (env : Env) (st : RAGState), env.use_gpu = false →
        shutdown_event env st = st) ∧
    (∀ (env : Env) (st : RAGState),
        env.use_gpu = true → (∀ id, env.releaseFails id = false) →
          shutdown_event env (shutdown_event env st) = shutdown_event env st ∧
          (shutdown_event env st).memories = st.memories ∧
          ∀ id vs, getA st.vectorstores id = some vs →
            getA (shutdown_event env st).vectorstores id =
              some { texts := vs.texts, loc := IndexLoc.cpu }) := by
  constructor
  · intro env st h
    simp [shutdown_event, cleanup, h]
  · intro env st hg hfail
    refine ⟨?_, ?_, ?_⟩
    · simp [shutdown_event, cleanup, hg, releaseLoop_noFail _ _ hfail, List.map_map]
    · simp [shutdown_event, cleanup, hg]
    · intro id vs h
      simp [shutdown_event, cleanup, hg, releaseLoop_noFail _ _ hfail, getA_map_loc, h]

/-- Witness for `c9_amended` at concrete states. -/
theorem c9_amended_witness :
    shutdown_event envNone st0 = st0 ∧
    getA (shutdown_event envRelOk stTwoGpu).vectorstores "a" =
      some { texts := ["ta"], loc := IndexLoc.cpu } :=
  ⟨c9_amended.1 envNone st0 rfl,
   (c9_amended.2 envRelOk stTwoGpu rfl (fun _ => rfl)).2.2 "a"
     { texts := ["ta"], loc := IndexLoc.gpu } (by decide)⟩


theorem load_preserves_other (env : Env) (st : RAGState) (id1 id2 : String)
    (h : id1 ≠ id2) :
    getA (load_meeting_data env st id1).2.vectorstores id2 = getA st.vectorstores id2 ∧
    getA (load_meeting_data env st id1).2.memories id2 = getA st.memories id2 := by
  unfold load_meeting_data
  repeat' split
  all_goals simp [getA_setA_ne _ _ _ _ h]

theorem answer_preserves_other (env : Env) (st : RAGState) (id1 id2 q : String)
    (complete : ChainInput → Option String) (h : id1 ≠ id2) :
    getA (answer_question env st id1 q complete).2.memories id2 =
      getA st.memories id2 := by
  unfold answer_question
  split
  · unfold answerLoaded
    repeat' split
    all_goals simp [getA_setA_ne _ _ _ _ h]
  · split
    · next st1 heq =>
      have hload := (load_preserves_other env st id1 id2 h).2
      rw [heq] at hload
      exact hload
    · next st1 heq =>
      have hload := (load_preserves_other env st id1 id2 h).2
      rw [heq] at hload
      unfold answerLoaded
      repeat' split
      all_goals simp [getA_setA_ne _ _ _ _ h, hload]

/-- C10: the registries are keyed by the exact caller-supplied meeting
id: loading or answering one meeting id never touches another id's
vector store or memory, and the ids "Weekly Sync" and "Weekly_Sync" —
which resolve to the same stored artifact — get two separate vector
stores and two separate conversation histories. -/
theorem c10_theorem :
    (∀ (env : Env) (st : RAGState) (id1 id2 : String), id1 ≠ id2 →
        getA (load_meeting_data env st id1).2.vectorstores id2 =
          getA st.vectorstores id2 ∧
        getA (load_meeting_data env st id1).2.memories id2 =
          getA st.memories id2 ∧
        ∀ (q : String) (complete : ChainInput → Option String),
          getA (answer_question env st id1 q complete).2.memories id2 =
            getA st.memories id2) ∧
    resolveLatest "Weekly Sync" env1.files = some weeklyFile ∧
    resolveLatest "Weekly_Sync" env1.files = some weeklyFile ∧
    (getA stBoth.vectorstores "Weekly Sync").isSome = true ∧
    (getA stBoth.vectorstores "Weekly_Sync").isSome = true ∧
    getA stBoth.memories "Weekly Sync" = some [] ∧
    getA stBoth.memories "Weekly_Sync" = some [] := by
  refine ⟨?_, by decide, by decide, by decide, by decide, by decide, by decide⟩
  intro env st id1 id2 h
  exact ⟨(load_preserves_other env st id1 id2 h).1,
         (load_preserves_other env st id1 id2 h).2,
         fun q complete => answer_preserves_other env st id1 id2 q complete h⟩

/-- Witness for `c10_theorem`: answering for "Weekly Sync" leaves
"Weekly_Sync"'s history untouched. -/
theorem c10_witness :
    getA (answer_question env1 stBoth "Weekly Sync" "Q"
        (fun _ => some "A")).2.memories "Weekly_Sync" =
      getA stBoth.memories "Weekly_Sync" :=
  (c10_theorem.1 env1 stBoth "Weekly Sync" "Weekly_Sync" (by decide)).2.2 "Q"
    (fun _ => some "A")

theorem numChunks_eq_ceil (L S O : Nat) (hOS : O < S) (hOL : O < L) :
    numChunks L S (S - O) = (L - O + (S - O) - 1) / (S - O) := by
  have hb : 0 < S - O := by omega
  unfold numChunks
  by_cases hLS : L ≤ S
  · have h1 : L - O + (S - O) - 1 = (L - O - 1) + (S - O) := by omega
    rw [if_pos hLS, h1, Nat.add_div_right _ hb, Nat.div_eq_of_lt (by omega)]
  · have h1 : L - O + (S - O) - 1 = (L - S + (S - O) - 1) + (S - O) := by omega
    rw [if_neg hLS, h1, Nat.add_div_right _ hb]
    omega

/-- C4: the claim fails on the spec-modelled chunker at short documents.
A 100-character document with chunk size 1000 and overlap 200 produces
exactly one chunk, while the claimed formula `ceil((L - O) / (S - O))`
evaluates to 0 there — the claim's formula and its own one-chunk
boundary case contradict each other whenever `L ≤ O`. -/
theorem c4_counterexample :
    (String.mk (List.replicate 100 'a')).data.length = 100 ∧
    ((split_text (String.mk (List.replicate 100 'a')) 1000 200).toOption.getD []).length
      = 1 ∧
    (⌈((100 : ℚ) - 200) / (1000 - 200)⌉ : ℤ) = 0 := by
  refine ⟨by decide, by decide, by norm_num⟩

/-- C4 (amended): with `O < S`, splitting always succeeds, chunk `i`
starts at character `i * (S - O)`, a document of length `L ≤ S` yields
exactly one chunk, and the chunk count is `ceil((L - O) / (S - O))`
(as the Nat expression `(L - O + (S - O) - 1) / (S - O)`) whenever
`L > O`; for `L ≤ O` the count is 1 rather than the claimed formula. -/
theorem c4_amended :
    ∀ (doc : String) (S O : Nat), O < S →
      ∃ chunks, split_text doc S O = Except.ok chunks ∧
        chunks.length = numChunks doc.data.length S (S - O) ∧
        (doc.data.length ≤ S → chunks.length = 1) ∧
        (O < doc.data.length →
          chunks.length = (doc.data.length - O + (S - O) - 1) / (S - O)) ∧
        ∀ i < chunks.length,
          chunks[i]? = some (String.mk ((doc.data.drop (i * (S - O))).take S)) := by
  intro doc S O h
  have hlen : ((slideChunks S (S - O) doc.data).map (fun cs => String.mk cs)).length
      = numChunks doc.data.length S (S - O) := by
    rw [List.length_map, slideChunks, List.length_map, List.length_range]
  refine ⟨(slideChunks S (S - O) doc.data).map (fun cs => String.mk cs),
    by simp [split_text, h], hlen, ?_, ?_, ?_⟩
  · intro hle
    rw [hlen]
    simp only [numChunks]
    rw [if_pos hle]
  · intro hlt
    rw [hlen, numChunks_eq_ceil _ _ _ h hlt]
  · intro i hi
    rw [hlen] at hi
    rw [List.getElem?_map, slideChunks, List.getElem?_map, List.getElem?_range hi]
    rfl

/-- Witness for `c4_amended` on a 5-character document with size 3 and
overlap 1: two chunks, starting at characters 0 and 2. -/
theorem c4_amended_witness :
    ∃ chunks, split_text (String.mk ['a', 'b', 'c', 'd', 'e']) 3 1 = Except.ok chunks ∧
      chunks.length = numChunks (String.mk ['a', 'b', 'c', 'd', 'e']).data.length 3 (3 - 1) ∧
      ((String.mk ['a', 'b', 'c', 'd', 'e']).data.length ≤ 3 → chunks.length = 1) ∧
      (1 < (String.mk ['a', 'b', 'c', 'd', 'e']).data.length →
        chunks.length =
          ((String.mk ['a', 'b', 'c', 'd', 'e']).data.length - 1 + (3 - 1) - 1) / (3 - 1)) ∧
      ∀ i < chunks.length,
        chunks[i]? =
          some (String.mk (((String.mk ['a', 'b', 'c', 'd', 'e']).data.drop (i * (3 - 1))).take 3)) :=
  c4_amended (String.mk ['a', 'b', 'c', 'd', 'e']) 3 1 (by decide)

end Wizard
